/-
Verification of the device abstraction layer of the py-ninja repository
(ninja/devices.py) against its natural-language specification.

Shallow embedding conventions:
* Python `None` is modelled by the `null` constructor of `DVal` / `PyVal`,
  or by `Option.none` for timestamp fields.
* `datetime` values are modelled by their epoch-seconds value (`Nat`);
  `datetime.utcnow()` becomes an explicit `now : Nat` argument, and
  `datetime.utcfromtimestamp(ts / 1000)` becomes `ts / 1000` (Python 2
  integer division on a non-negative epoch-milliseconds value).
* `datetime.isoformat()` (external stdlib) is modelled abstractly by the
  injective constructor `PyVal.iso : Nat → PyVal`, standing for the
  ISO-8601 rendering of the timestamp.
* The HTTP transport (`self.api`, an external collaborator) is modelled by
  passing its responses as explicit arguments: a `HeartbeatResponse` for
  `getDeviceHeartbeat`, and a stream `fetch : Nat → Info` giving the result
  of the k-th directory fetch (`_makeGETRequest(DEVICES_URL)['data'][guid]`)
  inside `Relay._change_state`.  PUT requests are returned as values.
* Raising an exception (`raise Warning(...)`, `KeyError`, `ValueError` from
  `int(...)`) is modelled with `Except String`.
* Event dispatch: the `Events` base class lives in ninja/events.py, which is
  not part of the sources at hand; per the spec (§4.1) `fire` synchronously
  invokes the subscribed callbacks.  Here a call to `_fire` is modelled by
  recording the fired event (name and arguments) in an output list, and the
  callback registry `self._callbacks` by a list of (event name, callback id)
  pairs to which `on` appends.
* `self.data == 0` / dict equality: Python structural equality between the
  payload values that occur here (None, ints, strings) coincides with
  decidable equality on `DVal` (`None == 0` is `False` in Python, etc.).
* `int(s) is int(logical_state)` in `_change_state`: the right-hand side is
  always 0 or 1, which CPython interns, so `is` coincides with `==` there;
  it is modelled as integer equality.  `int(s)` is modelled by
  `String.toInt?`, failure propagating as an exception.
-/
import Mathlib

/-- Parsed device data (`self.data`): `null` is Python `None`; heartbeat
payloads in this layer are numbers or strings. -/
inductive DVal where
  | null
  | num (n : Int)
  | str (s : String)
  deriving DecidableEq, Repr

/-- Values stored in the dictionary produced by `Device.asDict`.
`time t` is a `datetime` object (epoch seconds `t`); `iso t` is the string
`datetime.isoformat()` of that object; `dict` is the raw `last_data`
mapping; `data` embeds a `DVal`. -/
inductive PyVal where
  | null
  | str (s : String)
  | bool (b : Bool)
  | time (t : Nat)
  | iso (t : Nat)
  | dict (m : List (String × String))
  | data (d : DVal)
  deriving DecidableEq, Repr

/-- Events fired by `Device.heartbeat` through `Events._fire`:
`heartbeat data` and `change data previous_data` (devices.py lines 24-26). -/
inductive DevEvent where
  | heartbeat (d : DVal)
  | change (d previous : DVal)
  deriving DecidableEq, Repr

/-- A device description as supplied by the hub (the `info` dict consumed by
`Device.__init__`, also one entry of `_makeGETRequest(DEVICES_URL)['data']`).
Flag fields carry the raw integer when present (`info.get(...) == 1`). -/
structure Info where
  device_type : Option String
  shortName : Option String
  is_sensor : Option Int
  is_actuator : Option Int
  last_data : List (String × String)
  deriving DecidableEq, Repr

/-- Response of `api.getDeviceHeartbeat(guid)`: `data['id']` (0 = success),
`data['data']['DA']` and `data['data']['timestamp']` (epoch milliseconds). -/
structure HeartbeatResponse where
  id : Int
  DA : DVal
  timestamp : Nat
  deriving DecidableEq, Repr

/-- State of a `Device` instance (devices.py lines 28-40).  `_callbacks` is
the event-subscription registry of the `Events` base class, modelled as a
list of (event name, callback id) pairs. -/
structure Device where
  guid : String
  type : Option String
  name : Option String
  is_sensor : Bool
  is_actuator : Bool
  data : DVal
  last_heartbeat : Option Nat
  last_read : Option Nat
  last_data : List (String × String)
  callbacks : List (String × Nat)
  deriving DecidableEq, Repr

/-- Python `dict.get(k)`: first (unique) binding of `k` in an association
list. -/
def alistGet (m : List (String × String)) (k : String) : Option String :=
  match m.find? (fun p => p.fst == k) with
  | some p => some p.snd
  | none => none

/-- `Device.__init__(api, guid, info)` (devices.py lines 28-40): resets the
callback registry, stores identity and description-derived fields, and sets
`data`, `last_heartbeat`, `last_read` to `None`. -/
def Device.init (guid : String) (info : Info) : Device :=
  { guid := guid
    type := info.device_type
    name := info.shortName
    is_sensor := info.is_sensor = some 1
    is_actuator := info.is_actuator = some 1
    data := DVal.null
    last_heartbeat := none
    last_read := none
    last_data := info.last_data
    callbacks := [] }

/-- Modelled from the spec: `Events.on(eventName, callback)` of
ninja/events.py (not under the sources at hand); per spec §4.1 it adds the
callback to the registry for that event, in subscription order. -/
def Device.on (dev : Device) (eventName : String) (callbackId : Nat) : Device :=
  { dev with callbacks := dev.callbacks ++ [(eventName, callbackId)] }

/-- Result of one call to `Device.heartbeat`: the updated instance, the
events fired during the call (in order), and the returned pair
`(self.last_read, self.data)`. -/
structure HeartbeatResult where
  dev : Device
  fired : List DevEvent
  ret : Option Nat × DVal
  deriving DecidableEq, Repr

/-- `Device.heartbeat(silent=False)` (devices.py lines 51-66).  `parse` is
the variant hook `_parse` (default pass-through), `now` the value of
`datetime.utcnow()`, `resp` the transport response. -/
def Device.heartbeat (dev : Device) (resp : HeartbeatResponse) (now : Nat)
    (silent : Bool) (parse : DVal → DVal) : HeartbeatResult :=
  if resp.id = 0 then
    let previous_data := dev.data
    let newData := parse resp.DA
    let dev' := { dev with
      last_heartbeat := some now
      data := newData
      last_read := some (resp.timestamp / 1000) }
    let fired :=
      if silent then []
      else
        DevEvent.heartbeat newData ::
          (if newData ≠ previous_data then [DevEvent.change newData previous_data] else [])
    { dev := dev', fired := fired, ret := (dev'.last_read, dev'.data) }
  else
    { dev := dev, fired := [], ret := (dev.last_read, dev.data) }

/-- Python dict assignment `d[k] = v` for a key already present: replaces the
value bound to `k`, keeping the key set. -/
def setVal (m : List (String × PyVal)) (k : String) (v : PyVal) :
    List (String × PyVal) :=
  m.map (fun p => if p.fst == k then (p.fst, v) else p)

def timeVal : Option Nat → PyVal
  | some t => PyVal.time t
  | none => PyVal.null

def optStrVal : Option String → PyVal
  | some s => PyVal.str s
  | none => PyVal.null

/-- `Device.asDict(for_json=False)` (devices.py lines 68-90): projects the
fixed field tuple into a dict; in JSON mode overwrites `data` with
`self._dataToJSON()` (hook `dataToJSON`, default pass-through) and, when the
timestamps are truthy (a datetime is always truthy), overwrites them with
their `isoformat()` rendering. -/
def Device.asDict (dev : Device) (dataToJSON : DVal → PyVal)
    (for_json : Bool) : List (String × PyVal) :=
  let device_dict : List (String × PyVal) :=
    [ ("guid", PyVal.str dev.guid)
    , ("type", optStrVal dev.type)
    , ("name", optStrVal dev.name)
    , ("is_sensor", PyVal.bool dev.is_sensor)
    , ("is_actuator", PyVal.bool dev.is_actuator)
    , ("data", PyVal.data dev.data)
    , ("last_heartbeat", timeVal dev.last_heartbeat)
    , ("last_read", timeVal dev.last_read)
    , ("last_data", PyVal.dict dev.last_data) ]
  if for_json then
    let d1 := setVal device_dict "data" (dataToJSON dev.data)
    let d2 := match dev.last_read with
      | some t => setVal d1 "last_read" (PyVal.iso t)
      | none => d1
    match dev.last_heartbeat with
      | some t => setVal d2 "last_heartbeat" (PyVal.iso t)
      | none => d2
  else
    device_dict

/-- Default `_dataToJSON` hook of the base `Device` (pass-through,
devices.py lines 118-119). -/
def defaultDataToJSON (d : DVal) : PyVal := PyVal.data d

/-- `Button.isPushed` (devices.py lines 146-148): `self.data == 0`. -/
def Button.isPushed (dev : Device) : Bool := dev.data = DVal.num 0

/-- State of a `Relay` instance: the underlying `Device` fields plus the
tri-state `state` (`some true` = On, `some false` = Off, `none` = Unknown,
i.e. Python `True` / `False` / `None`). -/
structure Relay where
  toDevice : Device
  state : Option Bool
  deriving DecidableEq, Repr

/-- `Relay.__init__` (devices.py lines 180-188): runs `Device.__init__` and
derives the tri-state from `self.last_data.get('DA', '0')`. -/
def Relay.init (guid : String) (info : Info) : Relay :=
  let dev := Device.init guid info
  let last_known_state := (alistGet dev.last_data "DA").getD "0"
  { toDevice := dev
    state :=
      if last_known_state = "0" then some false
      else if last_known_state = "1" then some true
      else none }

/-- `Relay.unknown_state_check` (devices.py lines 190-194): raises
`Warning('Relay device is in an unknown state!')` when `state` is `None`. -/
def Relay.unknown_state_check (r : Relay) : Except String Unit :=
  if r.state = none then Except.error "Relay device is in an unknown state!"
  else Except.ok ()

/-- `Relay.is_turned_on` property (devices.py lines 196-199). -/
def Relay.is_turned_on (r : Relay) : Except String Bool := do
  r.unknown_state_check
  pure (r.state = some true)

/-- `Relay.is_turned_off` property (devices.py lines 201-204). -/
def Relay.is_turned_off (r : Relay) : Except String Bool := do
  r.unknown_state_check
  pure (r.state = some false)

instance {ε α : Type} [DecidableEq ε] [DecidableEq α] :
    DecidableEq (Except ε α) := fun a b =>
  match a, b with
  | Except.error x, Except.error y =>
    if h : x = y then isTrue (by rw [h])
    else isFalse (fun hh => h (Except.error.inj hh))
  | Except.error _, Except.ok _ => isFalse (fun hh => Except.noConfusion hh)
  | Except.ok _, Except.error _ => isFalse (fun hh => Except.noConfusion hh)
  | Except.ok x, Except.ok y =>
    if h : x = y then isTrue (by rw [h])
    else isFalse (fun hh => h (Except.ok.inj hh))

/-- Value of a decimal digit character, `none` for a non-digit. -/
def digitVal (c : Char) : Option Nat :=
  if 48 ≤ c.toNat ∧ c.toNat ≤ 57 then some (c.toNat - 48) else none

/-- Decimal value of a non-empty digit string, `none` on any non-digit. -/
def natOfDigits (cs : List Char) : Option Nat :=
  if cs = [] then none
  else
    cs.foldl
      (fun acc c =>
        match acc, digitVal c with
        | some a, some d => some (a * 10 + d)
        | _, _ => none)
      (some 0)

/-- Python `int(s)` (external builtin) on a decimal numeral, optionally
signed; `none` models the `ValueError` it raises otherwise.  (Python also
strips whitespace and accepts an explicit `+`; those inputs do not occur
here and are modelled as failures.) -/
def pyInt (s : String) : Option Int :=
  match s.data with
  | '-' :: cs => (natOfDigits cs).map (fun n => -(n : Int))
  | cs => (natOfDigits cs).map (fun n => (n : Int))

/-- `int(new_info['last_data']['DA'])` : dict lookup (KeyError when absent)
followed by `int()` (ValueError when unparseable), both modelled as `none`. -/
def parseDA (info : Info) : Option Int :=
  match alistGet info.last_data "DA" with
  | some s => pyInt s
  | none => none

/-- The verification loop of `Relay._change_state` (devices.py lines
211-216):

    state_change_confirmed = False
    count = 0
    while state_change_confirmed is False and count < 10:
        new_info = api._makeGETRequest(DEVICES_URL)['data'][guid]
        state_change_confirmed = int(new_info['last_data']['DA']) is int(logical_state)
        count += 1

`fetch k` is the result of the k-th GET request; the returned pair is
(`new_info`, `count`) at loop exit, where `new_info` is `none` when the body
never executed.  Structural recursion on `fuel`, maintained as `10 - count`,
so that `fuel = 0` is exactly `count ≥ 10`. -/
def loopAux (fetch : Nat → Info) (desired : Int) :
    Nat → Bool → Nat → Option Info → Except String (Option Info × Nat)
  | 0, _, count, new_info => Except.ok (new_info, count)
  | fuel + 1, state_change_confirmed, count, new_info =>
    if state_change_confirmed then Except.ok (new_info, count)
    else
      match parseDA (fetch count) with
      | none => Except.error "int() failed on last_data DA"
      | some v =>
        loopAux fetch desired fuel (v = desired) (count + 1) (some (fetch count))

/-- The verification loop started with `confirmed = False`, `count = 0`. -/
def changeStateLoop (fetch : Nat → Info) (desired : Int) :
    Except String (Option Info × Nat) :=
  loopAux fetch desired 10 false 0 none

/-- `str(int(logical_state))` for a Python boolean. -/
def pyStrOfBool (b : Bool) : String := if b then "1" else "0"

/-- The PUT request issued by `_change_state`: target device and payload. -/
structure PutRequest where
  guid : String
  payload : List (String × String)
  deriving DecidableEq, Repr

/-- `Relay._change_state(logical_state)` (devices.py lines 206-217): issues
the PUT with payload `{"DA": str(int(logical_state))}`, runs the bounded
verification loop, then re-runs `__init__` on the instance with the last
fetched description.  The `Except.ok (none, _)` branch of the loop is
unreachable from `changeStateLoop` (the loop body runs at least once, since
it is entered with `confirmed = False` and `count = 0 < 10`, and a completed
body leaves `new_info` bound); Python would raise `NameError` there. -/
def Relay._change_state (r : Relay) (fetch : Nat → Info) (logical_state : Bool) :
    PutRequest × Except String Relay :=
  let put : PutRequest :=
    { guid := r.toDevice.guid, payload := [("DA", pyStrOfBool logical_state)] }
  let desired : Int := if logical_state then 1 else 0
  match changeStateLoop fetch desired with
  | Except.error e => (put, Except.error e)
  | Except.ok (some new_info, _) =>
    (put, Except.ok (Relay.init r.toDevice.guid new_info))
  | Except.ok (none, _) => (put, Except.error "new_info unbound")

/-- `Relay.turn_on` (devices.py lines 219-220). -/
def Relay.turn_on (r : Relay) (fetch : Nat → Info) :
    PutRequest × Except String Relay :=
  r._change_state fetch true

/-- `Relay.turn_off` (devices.py lines 222-223). -/
def Relay.turn_off (r : Relay) (fetch : Nat → Info) :
    PutRequest × Except String Relay :=
  r._change_state fetch false

/-! Concrete fixtures used by witnesses and counterexamples. -/

/-- A relay description whose raw last-known state is `"1"` (On). -/
def infoDA1 : Info :=
  { device_type := some "relay", shortName := some "r"
    is_sensor := some 0, is_actuator := some 1, last_data := [("DA", "1")] }

/-- An empty description (no fields supplied). -/
def infoEmpty : Info :=
  { device_type := none, shortName := none
    is_sensor := none, is_actuator := none, last_data := [] }

/-- A freshly constructed device: both timestamps are `None`. -/
def devFresh : Device := Device.init "g" infoEmpty

/-- A freshly constructed device built from `infoDA1`. -/
def dev0 : Device := Device.init "g" infoDA1

/-- A relay whose `data` field holds a value (as after a successful poll). -/
def relayPolled : Relay :=
  { toDevice := { Device.init "g" infoDA1 with data := DVal.num 23 }
    state := some true }

/-- A relay with one callback subscribed to its heartbeat event. -/
def relaySubscribed : Relay :=
  { toDevice := Device.on (Device.init "g" infoDA1) "heartbeat" 7
    state := some true }

/-! Characterization of the `_change_state` verification loop.  `stopCountAux
p count fuel` computes the value of `count` at loop exit, for a loop entered
at `count` with `fuel = 10 - count` iterations left, where `p i` tells
whether the i-th fetch reports the desired state. -/

def stopCountAux (p : Nat → Bool) : Nat → Nat → Nat
  | count, 0 => count
  | count, fuel + 1 => if p count then count + 1 else stopCountAux p (count + 1) fuel

theorem stopCountAux_lb (p : Nat → Bool) :
    ∀ fuel count, count ≤ stopCountAux p count fuel := by
  intro fuel
  induction fuel with
  | zero => intro count; simp [stopCountAux]
  | succ fuel ih =>
    intro count
    simp only [stopCountAux]
    split
    · omega
    · exact le_trans (Nat.le_succ count) (ih (count + 1))

theorem stopCountAux_pos (p : Nat → Bool) (fuel count : Nat) :
    count < stopCountAux p count (fuel + 1) := by
  simp only [stopCountAux]
  split
  · omega
  · exact lt_of_lt_of_le (Nat.lt_succ_self count) (stopCountAux_lb p fuel (count + 1))

theorem stopCountAux_ub (p : Nat → Bool) :
    ∀ fuel count, stopCountAux p count fuel ≤ count + fuel := by
  intro fuel
  induction fuel with
  | zero => intro count; simp [stopCountAux]
  | succ fuel ih =>
    intro count
    simp only [stopCountAux]
    split
    · omega
    · have := ih (count + 1)
      omega

theorem stopCountAux_not_before (p : Nat → Bool) :
    ∀ fuel count i, count ≤ i → i + 1 < stopCountAux p count fuel → p i = false := by
  intro fuel
  induction fuel with
  | zero =>
    intro count i hci hlt
    simp [stopCountAux] at hlt
    omega
  | succ fuel ih =>
    intro count i hci hlt
    simp only [stopCountAux] at hlt
    by_cases hp : p count
    · rw [if_pos hp] at hlt
      omega
    · rw [if_neg hp] at hlt
      rcases Nat.eq_or_lt_of_le hci with heq | hlt2
      · subst heq; exact Bool.eq_false_iff.mpr hp
      · exact ih (count + 1) i hlt2 hlt

theorem stopCountAux_first (p : Nat → Bool) :
    ∀ fuel count j, count ≤ j → j < count + fuel → p j = true →
      stopCountAux p count fuel ≤ j + 1 := by
  intro fuel
  induction fuel with
  | zero => intro count j hcj hj _; omega
  | succ fuel ih =>
    intro count j hcj hj hpj
    simp only [stopCountAux]
    by_cases hp : p count
    · rw [if_pos hp]; omega
    · rw [if_neg hp]
      rcases Nat.eq_or_lt_of_le hcj with heq | hlt
      · subst heq; rw [hpj] at hp; exact absurd rfl hp
      · exact ih (count + 1) j hlt (by omega) hpj

theorem stopCountAux_all_false (p : Nat → Bool) :
    ∀ fuel count, (∀ i, count ≤ i → i < count + fuel → p i = false) →
      stopCountAux p count fuel = count + fuel := by
  intro fuel
  induction fuel with
  | zero => intro count _; simp [stopCountAux]
  | succ fuel ih =>
    intro count h
    simp only [stopCountAux]
    rw [if_neg (by simp [h count (le_refl count) (by omega)])]
    have := ih (count + 1) (fun i hi hi2 => h i (by omega) (by omega))
    omega

theorem loopAux_confirmed (fetch : Nat → Info) (desired : Int) :
    ∀ fuel count last,
      loopAux fetch desired fuel true count last = Except.ok (last, count) := by
  intro fuel count last
  cases fuel <;> simp [loopAux]

/-- Running the verification loop when every fetch within the budget yields a
parseable raw state `v i`: the loop never raises, exits with
`count = stopCountAux`, and `new_info` bound to the last fetch. -/
theorem loopAux_run (fetch : Nat → Info) (desired : Int) (v : Nat → Int)
    (h : ∀ i, i < 10 → parseDA (fetch i) = some (v i)) :
    ∀ fuel count last, count + fuel = 10 →
      loopAux fetch desired fuel false count last =
        if fuel = 0 then Except.ok (last, count)
        else
          Except.ok
            (some (fetch (stopCountAux (fun i => decide (v i = desired)) count fuel - 1)),
             stopCountAux (fun i => decide (v i = desired)) count fuel) := by
  intro fuel
  induction fuel with
  | zero => intro count last _; simp [loopAux]
  | succ fuel ih =>
    intro count last hc
    have hcount : count < 10 := by omega
    rw [if_neg (Nat.succ_ne_zero fuel)]
    simp only [loopAux, Bool.false_eq_true, if_false, h count hcount]
    by_cases hp : v count = desired
    · rw [decide_eq_true hp, loopAux_confirmed]
      simp [stopCountAux, hp]
    · rw [decide_eq_false hp]
      rw [ih (count + 1) (some (fetch count)) (by omega)]
      have hstop : stopCountAux (fun i => decide (v i = desired)) count (fuel + 1) =
          stopCountAux (fun i => decide (v i = desired)) (count + 1) fuel := by
        simp [stopCountAux, hp]
      by_cases hf : fuel = 0
      · subst hf
        simp [hstop, stopCountAux]
      · rw [if_neg hf, hstop]

/-- The loop as entered by `_change_state` (`confirmed = False`, `count = 0`),
under the same parseability assumption. -/
theorem changeStateLoop_run (fetch : Nat → Info) (desired : Int) (v : Nat → Int)
    (h : ∀ i, i < 10 → parseDA (fetch i) = some (v i)) :
    changeStateLoop fetch desired =
      Except.ok
        (some (fetch (stopCountAux (fun i => decide (v i = desired)) 0 10 - 1)),
         stopCountAux (fun i => decide (v i = desired)) 0 10) := by
  unfold changeStateLoop
  rw [loopAux_run fetch desired v h 10 0 none rfl]
  simp

theorem setVal_keys (m : List (String × PyVal)) (k : String) (v : PyVal) :
    (setVal m k v).map Prod.fst = m.map Prod.fst := by
  unfold setVal
  rw [List.map_map]
  congr 1
  funext p
  simp only [Function.comp_apply]
  split <;> rfl

/-! Claim theorems. -/

/-- Claim C1: for every successful (`data['id'] == 0`), non-silent poll, the
`HEARTBEAT` event fires with the new data, and the `CHANGE` event fires with
(new data, previous data) if and only if the newly parsed data is not equal
to the data held immediately before the poll. -/
theorem heartbeat_fires_change_iff_data_changed (dev : Device)
    (resp : HeartbeatResponse) (now : Nat) (parse : DVal → DVal)
    (hsucc : resp.id = 0) :
    (dev.heartbeat resp now false parse).dev.data = parse resp.DA ∧
    (dev.heartbeat resp now false parse).fired =
      DevEvent.heartbeat (parse resp.DA) ::
        (if parse resp.DA ≠ dev.data
          then [DevEvent.change (parse resp.DA) dev.data] else []) ∧
    DevEvent.heartbeat (parse resp.DA) ∈ (dev.heartbeat resp now false parse).fired ∧
    (DevEvent.change (parse resp.DA) dev.data ∈ (dev.heartbeat resp now false parse).fired
      ↔ parse resp.DA ≠ dev.data) := by
  simp only [Device.heartbeat, hsucc, if_pos, if_false, Bool.false_eq_true]
  by_cases hd : parse resp.DA = dev.data <;> simp [hd]

/-- Witness for C1 at a concrete device and successful response: the new
data (5) differs from the previous data (`None`), so both events fire. -/
theorem heartbeat_fires_change_iff_data_changed_witness :
    (⟨0, DVal.num 5, 1700000000123⟩ : HeartbeatResponse).id = 0 ∧
    ((dev0.heartbeat ⟨0, DVal.num 5, 1700000000123⟩ 12345 false (fun d => d)).dev.data
        = DVal.num 5 ∧
      (dev0.heartbeat ⟨0, DVal.num 5, 1700000000123⟩ 12345 false (fun d => d)).fired =
        DevEvent.heartbeat (DVal.num 5) ::
          (if DVal.num 5 ≠ dev0.data
            then [DevEvent.change (DVal.num 5) dev0.data] else []) ∧
      DevEvent.heartbeat (DVal.num 5) ∈
        (dev0.heartbeat ⟨0, DVal.num 5, 1700000000123⟩ 12345 false (fun d => d)).fired ∧
      (DevEvent.change (DVal.num 5) dev0.data ∈
          (dev0.heartbeat ⟨0, DVal.num 5, 1700000000123⟩ 12345 false (fun d => d)).fired
        ↔ DVal.num 5 ≠ dev0.data)) :=
  ⟨rfl, heartbeat_fires_change_iff_data_changed dev0 ⟨0, DVal.num 5, 1700000000123⟩
    12345 (fun d => d) rfl⟩

/-- Claim C2: a poll whose transport status is non-success leaves the whole
instance unchanged (in particular `data`, `last_heartbeat`, `last_read`),
fires no event, and still returns the pair `(last_read, data)`. -/
theorem failed_heartbeat_is_noop (dev : Device) (resp : HeartbeatResponse)
    (now : Nat) (silent : Bool) (parse : DVal → DVal) (hfail : resp.id ≠ 0) :
    dev.heartbeat resp now silent parse =
      { dev := dev, fired := [], ret := (dev.last_read, dev.data) } := by
  simp [Device.heartbeat, hfail]

/-- Witness for C2 at a concrete device and failing response (status 3). -/
theorem failed_heartbeat_is_noop_witness :
    (⟨3, DVal.num 5, 1700000000123⟩ : HeartbeatResponse).id ≠ 0 ∧
    dev0.heartbeat ⟨3, DVal.num 5, 1700000000123⟩ 12345 false (fun d => d) =
      { dev := dev0, fired := [], ret := (dev0.last_read, dev0.data) } :=
  ⟨by decide, failed_heartbeat_is_noop dev0 ⟨3, DVal.num 5, 1700000000123⟩
    12345 false (fun d => d) (by decide)⟩

/-- Claim C8: `Button.isPushed` is true if and only if the current `data`
equals the sentinel pressed value 0; for every other `DVal` (including
`null`, i.e. Python `None`) it is false. -/
theorem button_isPushed_iff_data_zero (dev : Device) :
    Button.isPushed dev = true ↔ dev.data = DVal.num 0 := by
  simp [Button.isPushed]

/-- Claim C4: a Relay constructed from a description carrying raw last-known
state `s` is Off for `s = "0"`, On for `s = "1"`, Unknown otherwise; the read
accessors return the expected booleans for Off/On and both raise the
unknown-state error (`Warning('Relay device is in an unknown state!')`) for
Unknown. -/
theorem relay_tristate_and_accessors (guid : String) (dt sn : Option String)
    (isS isA : Option Int) (s : String) (rest : List (String × String)) :
    ((Relay.init guid ⟨dt, sn, isS, isA, ("DA", s) :: rest⟩).state =
      (if s = "0" then some false else if s = "1" then some true else none)) ∧
    ((Relay.init guid ⟨dt, sn, isS, isA, ("DA", s) :: rest⟩).is_turned_on =
      (if s = "0" then Except.ok false
       else if s = "1" then Except.ok true
       else Except.error "Relay device is in an unknown state!")) ∧
    ((Relay.init guid ⟨dt, sn, isS, isA, ("DA", s) :: rest⟩).is_turned_off =
      (if s = "0" then Except.ok true
       else if s = "1" then Except.ok false
       else Except.error "Relay device is in an unknown state!")) := by
  by_cases h0 : s = "0" <;> by_cases h1 : s = "1" <;>
    simp [Relay.init, Device.init, alistGet, Relay.is_turned_on,
      Relay.is_turned_off, Relay.unknown_state_check, h0, h1,
      Bind.bind, Except.bind, Pure.pure, Except.pure]

/-- Claim C9: a Relay constructed from a description whose `last_data`
carries no `'DA'` key defaults the raw state to `"0"`, hence is Off:
`is_turned_off` is `True`, `is_turned_on` is `False`, and no unknown-state
error is raised. -/
theorem relay_missing_raw_state_defaults_off (guid : String) (info : Info)
    (h : alistGet info.last_data "DA" = none) :
    (Relay.init guid info).state = some false ∧
    (Relay.init guid info).is_turned_off = Except.ok true ∧
    (Relay.init guid info).is_turned_on = Except.ok false := by
  simp [Relay.init, Device.init, h, Relay.is_turned_on, Relay.is_turned_off,
    Relay.unknown_state_check, Bind.bind, Except.bind, Pure.pure, Except.pure]

/-- Witness for C9 at a description with an empty `last_data` mapping. -/
theorem relay_missing_raw_state_defaults_off_witness :
    alistGet infoEmpty.last_data "DA" = none ∧
    ((Relay.init "g" infoEmpty).state = some false ∧
     (Relay.init "g" infoEmpty).is_turned_off = Except.ok true ∧
     (Relay.init "g" infoEmpty).is_turned_on = Except.ok false) :=
  ⟨rfl, relay_missing_raw_state_defaults_off "g" infoEmpty rfl⟩

/-- Claim C7 counterexample: on a freshly constructed device (both
timestamps `None`), `asDict(for_json=True)` keeps the key `'last_read'`
in the produced mapping, bound to `None` — the key does not become absent,
contradicting the claim that None timestamps "remain absent". -/
theorem asDict_none_timestamp_key_present_cex :
    devFresh.last_read = none ∧
    "last_read" ∈ (devFresh.asDict defaultDataToJSON true).map Prod.fst ∧
    List.lookup "last_read" (devFresh.asDict defaultDataToJSON true) =
      some PyVal.null := by
  decide

/-- Claim C7 (amended): `asDict` always produces a mapping with exactly the
keys {guid, type, name, is_sensor, is_actuator, data, last_heartbeat,
last_read, last_data}; with the JSON flag set, `data` passes through the
variant's JSON-projection hook, timestamps that are present are rendered as
ISO-8601 strings, and `None` timestamps stay in the mapping with value
`None` (no error is raised). -/
theorem asDict_keys_and_json_rendering (dev : Device)
    (dataToJSON : DVal → PyVal) (for_json : Bool) :
    ((dev.asDict dataToJSON for_json).map Prod.fst =
      ["guid", "type", "name", "is_sensor", "is_actuator", "data",
       "last_heartbeat", "last_read", "last_data"]) ∧
    (List.lookup "data" (dev.asDict dataToJSON true) =
      some (dataToJSON dev.data)) ∧
    (List.lookup "last_read" (dev.asDict dataToJSON true) =
      some (match dev.last_read with
            | some t => PyVal.iso t
            | none => PyVal.null)) ∧
    (List.lookup "last_heartbeat" (dev.asDict dataToJSON true) =
      some (match dev.last_heartbeat with
            | some t => PyVal.iso t
            | none => PyVal.null)) := by
  refine ⟨?_, ?_, ?_, ?_⟩
  · cases for_json with
    | false => rfl
    | true =>
      cases hlr : dev.last_read <;> cases hlh : dev.last_heartbeat <;>
        simp [Device.asDict, hlr, hlh, setVal_keys]
  · cases hlr : dev.last_read <;> cases hlh : dev.last_heartbeat <;>
      simp only [Device.asDict, hlr, hlh] <;> rfl
  · cases hlr : dev.last_read <;> cases hlh : dev.last_heartbeat <;>
      simp only [Device.asDict, hlr, hlh] <;> rfl
  · cases hlr : dev.last_read <;> cases hlh : dev.last_heartbeat <;>
      simp only [Device.asDict, hlr, hlh] <;> rfl

/-- Any `Relay` returned by a completed `_change_state` is the result of
re-running `__init__` on the live instance with the last fetched
description. -/
theorem change_state_ok_inv (r : Relay) (fetch : Nat → Info) (b : Bool)
    (r' : Relay) (h : (r._change_state fetch b).2 = Except.ok r') :
    ∃ info, r' = Relay.init r.toDevice.guid info := by
  simp only [Relay._change_state] at h
  cases hres : changeStateLoop fetch (if b then 1 else 0) with
  | error e => rw [hres] at h; simp at h
  | ok p =>
    obtain ⟨oi, c⟩ := p
    rw [hres] at h
    cases oi with
    | none => simp at h
    | some info =>
      simp only at h
      exact ⟨info, (Except.ok.inj h).symm⟩

/-- Claim C3 counterexample: a Relay holding polled data (23) loses it to
`None` when the actuator command `turn_on` completes — so `data` is modified
by an operation that is not a successful poll, refuting the claim that a
poll marked successful by the transport is the only operation that modifies
`data`. -/
theorem actuator_command_modifies_data_cex :
    relayPolled.toDevice.data = DVal.num 23 ∧
    (relayPolled.turn_on (fun _ => infoDA1)).2 =
      Except.ok (Relay.init "g" infoDA1) ∧
    (Relay.init "g" infoDA1).toDevice.data ≠ relayPolled.toDevice.data := by
  decide

/-- Claim C3 (amended): `data` changes only as the result of a poll that the
transport marks successful, or of a Relay state-change command, whose
completing reconstruction resets `data` to `None`: a failed poll leaves
`data` unchanged, and a completed `_change_state` always leaves
`data = None`. -/
theorem data_changes_only_poll_or_relay_rebuild :
    (∀ (dev : Device) (resp : HeartbeatResponse) (now : Nat) (silent : Bool)
        (parse : DVal → DVal), resp.id ≠ 0 →
        (dev.heartbeat resp now silent parse).dev.data = dev.data) ∧
    (∀ (r r' : Relay) (fetch : Nat → Info) (b : Bool),
        (r._change_state fetch b).2 = Except.ok r' →
        r'.toDevice.data = DVal.null) := by
  constructor
  · intro dev resp now silent parse hfail
    simp [Device.heartbeat, hfail]
  · intro r r' fetch b h
    obtain ⟨info, rfl⟩ := change_state_ok_inv r fetch b r' h
    rfl

/-- Witness for the amended C3: a concrete failed poll leaves `data` in
place, and a concrete completed relay command ends with `data = None`. -/
theorem data_changes_only_poll_or_relay_rebuild_witness :
    (dev0.heartbeat ⟨3, DVal.num 5, 0⟩ 0 false (fun d => d)).dev.data =
      dev0.data ∧
    (Relay.init "g" infoDA1).toDevice.data = DVal.null :=
  ⟨data_changes_only_poll_or_relay_rebuild.1 dev0 ⟨3, DVal.num 5, 0⟩ 0 false
      (fun d => d) (by decide),
    data_changes_only_poll_or_relay_rebuild.2 relayPolled
      (Relay.init "g" infoDA1) (fun _ => infoDA1) true (by decide)⟩

/-- Claim C5: when every directory fetch parses, the verification loop of a
Relay command performs at most 10 fetches (and at least one), never passes
over a fetch reporting the desired integer state, stops no later than right
after the first such fetch, and performs exactly 10 fetches when no fetch
within the budget reports it.  The exit count is `c`; the loop returns the
last fetched description and `c`. -/
theorem confirmation_loop_fetch_bound (fetch : Nat → Info) (desired : Int)
    (v : Nat → Int) (h : ∀ i, i < 10 → parseDA (fetch i) = some (v i))
    (c : Nat) (hc : c = stopCountAux (fun i => decide (v i = desired)) 0 10) :
    changeStateLoop fetch desired = Except.ok (some (fetch (c - 1)), c) ∧
    1 ≤ c ∧ c ≤ 10 ∧
    (∀ i, i + 1 < c → v i ≠ desired) ∧
    (∀ j, j < 10 → v j = desired → c ≤ j + 1) ∧
    ((∀ i, i < 10 → v i ≠ desired) → c = 10) := by
  subst hc
  refine ⟨changeStateLoop_run fetch desired v h, ?_, ?_, ?_, ?_, ?_⟩
  · have h1 : 0 < stopCountAux (fun i => decide (v i = desired)) 0 10 := by
      simpa using stopCountAux_pos (fun i => decide (v i = desired)) 9 0
    omega
  · have h2 := stopCountAux_ub (fun i => decide (v i = desired)) 10 0
    omega
  · intro i hi
    have hf := stopCountAux_not_before (fun k => decide (v k = desired)) 10 0 i
      (Nat.zero_le i) hi
    exact of_decide_eq_false hf
  · intro j hj hvj
    exact stopCountAux_first (fun k => decide (v k = desired)) 10 0 j
      (Nat.zero_le j) (by omega) (decide_eq_true hvj)
  · intro hall
    have h3 := stopCountAux_all_false (fun k => decide (v k = desired)) 10 0
      (fun i _ hi => decide_eq_false (hall i (by omega)))
    omega

/-- Witness for C5: a stream whose first fetch already reports the desired
state 1 — the loop confirms after exactly one fetch. -/
theorem confirmation_loop_fetch_bound_witness :
    (∀ i, i < 10 → parseDA ((fun _ => infoDA1) i) = some ((fun _ => (1 : Int)) i)) ∧
    changeStateLoop (fun _ => infoDA1) 1 = Except.ok (some infoDA1, 1) :=
  ⟨by decide, (confirmation_loop_fetch_bound (fun _ => infoDA1) 1 (fun _ => 1)
      (by decide) 1 (by decide)).1⟩

/-- Claim C6: a Relay command pushes the payload `{"DA": str(int(state))}`
(so `"1"` for on, `"0"` for off) and, whether the loop confirmed or
exhausted its budget, returns without exception an entity rebuilt by
`__init__` from the last fetched description. -/
theorem change_state_payload_and_rebuild (r : Relay) (fetch : Nat → Info)
    (b : Bool) (v : Nat → Int)
    (h : ∀ i, i < 10 → parseDA (fetch i) = some (v i)) (c : Nat)
    (hc : c = stopCountAux (fun i => decide (v i = (if b then 1 else 0))) 0 10) :
    r._change_state fetch b =
      ({ guid := r.toDevice.guid, payload := [("DA", if b then "1" else "0")] },
       Except.ok (Relay.init r.toDevice.guid (fetch (c - 1)))) := by
  subst hc
  simp only [Relay._change_state]
  rw [changeStateLoop_run fetch (if b then 1 else 0) v h]
  cases b <;> rfl

/-- Witness for C6: turning on a relay with every fetch reporting `"1"`:
payload `{"DA": "1"}`, rebuilt from the fetched description, no exception. -/
theorem change_state_payload_and_rebuild_witness :
    (∀ i, i < 10 → parseDA ((fun _ => infoDA1) i) = some ((fun _ => (1 : Int)) i)) ∧
    (Relay.init "g" infoDA1)._change_state (fun _ => infoDA1) true =
      ({ guid := "g", payload := [("DA", "1")] },
       Except.ok (Relay.init "g" infoDA1)) :=
  ⟨by decide, change_state_payload_and_rebuild (Relay.init "g" infoDA1)
    (fun _ => infoDA1) true (fun _ => 1) (by decide) 1 (by decide)⟩

/-- Claim C10: a completed `turn_on` or `turn_off` re-runs `__init__` on the
live instance, so the event-callback registry is reset to empty (every prior
subscription is discarded) and `data`, `last_heartbeat`, `last_read` are
reset to `None`. -/
theorem turn_command_resets_entity (r r' : Relay) (fetch : Nat → Info)
    (h : (r.turn_on fetch).2 = Except.ok r' ∨
         (r.turn_off fetch).2 = Except.ok r') :
    r'.toDevice.callbacks = [] ∧ r'.toDevice.data = DVal.null ∧
    r'.toDevice.last_heartbeat = none ∧ r'.toDevice.last_read = none := by
  rcases h with h | h
  · obtain ⟨info, rfl⟩ := change_state_ok_inv r fetch true r' h
    exact ⟨rfl, rfl, rfl, rfl⟩
  · obtain ⟨info, rfl⟩ := change_state_ok_inv r fetch false r' h
    exact ⟨rfl, rfl, rfl, rfl⟩

/-- Witness for C10: a relay with one registered heartbeat subscription,
turned on with a confirming fetch stream — the resulting entity has an empty
registry and `None` fields. -/
theorem turn_command_resets_entity_witness :
    (relaySubscribed.turn_on (fun _ => infoDA1)).2 =
      Except.ok (Relay.init "g" infoDA1) ∧
    ((Relay.init "g" infoDA1).toDevice.callbacks = [] ∧
     (Relay.init "g" infoDA1).toDevice.data = DVal.null ∧
     (Relay.init "g" infoDA1).toDevice.last_heartbeat = none ∧
     (Relay.init "g" infoDA1).toDevice.last_read = none) :=
  ⟨by decide, turn_command_resets_entity relaySubscribed (Relay.init "g" infoDA1)
    (fun _ => infoDA1) (Or.inl (by decide))⟩
